import Mathlib

/-!
Shallow embedding of the claude-code-telemetry bridge: the OTLP attribute
decoding, the event mapper (src/eventProcessor.js) and the metric mapper
(src/metricsProcessor.js), together with the session mutations they perform.
JavaScript numbers are modelled as rationals, `undefined` as `Option.none`,
and `NaN` results of `parseInt`/`parseFloat` as `Option.none` of the numeric
result type.  Session-handler methods that live in src/sessionHandler.js
(absent from the sources; only their callers and tests are present) are
modelled from the spec and marked as such in their doc comments.
-/

/-- Decoded OTLP attribute value, mirroring what `extractAttributeValue`
produces: a JavaScript string, number, boolean, `NaN`, or the null sentinel
for unknown tags.  Array and kvlist tags are omitted: no record involved in
the claims carries them. -/
inductive AttrValue where
  | str (s : String)
  | num (q : ℚ)
  | bool (b : Bool)
  | nan
  | null
deriving DecidableEq, Repr

/-- JavaScript truthiness of a decoded attribute value. -/
def attrTruthy : AttrValue → Bool
  | .str s => s ≠ ""
  | .num q => q ≠ 0
  | .bool b => b
  | .nan => false
  | .null => false

/-- JavaScript truthiness of a possibly-undefined value (`undefined` is falsy). -/
def attrTruthyOpt : Option AttrValue → Bool
  | some v => attrTruthy v
  | none => false

/-- JavaScript strict equality `===` on decoded attribute values.  Values of
different runtime types are never equal, and `NaN === NaN` is false. -/
def jsStrictEq : AttrValue → AttrValue → Bool
  | .str a, .str b => a = b
  | .num a, .num b => a = b
  | .bool a, .bool b => a = b
  | .null, .null => true
  | _, _ => false

/-- The expression `a || b` on possibly-undefined attribute values. -/
def jsOr (a b : Option AttrValue) : Option AttrValue :=
  if attrTruthyOpt a then a else b

/-- The expression `a || d` where the final alternative `d` is a literal. -/
def jsOrD (a : Option AttrValue) (d : AttrValue) : AttrValue :=
  match a with
  | some v => if attrTruthy v then v else d
  | none => d

/-- Numeric value of a list of decimal digit characters. -/
def digitsVal (l : List Char) : ℕ :=
  l.foldl (fun a c => a * 10 + (c.toNat - 48)) 0

/-- JavaScript `parseInt(s, 10)` on a string: skip leading whitespace, read an
optional sign and then the longest run of decimal digits; `none` models the
`NaN` returned when no digit is found. -/
def jsParseIntStr (s : String) : Option ℤ :=
  let l := s.data.dropWhile Char.isWhitespace
  match l with
  | '-' :: rest =>
      let ds := rest.takeWhile Char.isDigit
      if ds = [] then none else some (-(digitsVal ds : ℤ))
  | '+' :: rest =>
      let ds := rest.takeWhile Char.isDigit
      if ds = [] then none else some (digitsVal ds : ℤ)
  | _ =>
      let ds := l.takeWhile Char.isDigit
      if ds = [] then none else some (digitsVal ds : ℤ)

/-- Fractional value of the digits after a decimal point. -/
def fracVal (l : List Char) : ℚ :=
  (digitsVal l : ℚ) / (10 ^ l.length : ℚ)

/-- JavaScript `parseFloat(s)` on a string restricted to plain decimal
notation (optional sign, digits, optional point and digits); exponents do not
occur in the records the claims concern.  `none` models `NaN`. -/
def jsParseFloatStr (s : String) : Option ℚ :=
  let l := s.data.dropWhile Char.isWhitespace
  let core := fun (l : List Char) =>
    let ip := l.takeWhile Char.isDigit
    let rest := l.drop ip.length
    match rest with
    | '.' :: t =>
        let fp := t.takeWhile Char.isDigit
        if ip = [] ∧ fp = [] then none
        else some ((digitsVal ip : ℚ) + fracVal fp)
    | _ => if ip = [] then none else some ((digitsVal ip : ℚ))
  match l with
  | '-' :: rest => (core rest).map (fun q => -q)
  | '+' :: rest => core rest
  | _ => core l

/-- Truncation toward zero, the effect of `parseInt` on a (decimally
rendered) JavaScript number. -/
def ratTrunc (q : ℚ) : ℤ :=
  if 0 ≤ q then ⌊q⌋ else ⌈q⌉

/-- JavaScript `parseInt(v, 10)` applied to a decoded attribute value (a
number is first rendered in decimal, so it is truncated toward zero; every
other runtime type yields `NaN`, modelled as `none`). -/
def jsParseIntVal : AttrValue → Option ℤ
  | .str s => jsParseIntStr s
  | .num q => some (ratTrunc q)
  | _ => none

/-- JavaScript `parseFloat(v)` applied to a decoded attribute value. -/
def jsParseFloatVal : AttrValue → Option ℚ
  | .str s => jsParseFloatStr s
  | .num q => some q
  | _ => none

/-- Attribute bag: key/value list in arrival order; lookups are
last-write-wins as produced by assigning into a JavaScript object. -/
def AttrMap : Type := List (String × AttrValue)

/-- Lookup in an attribute bag, later entries overriding earlier ones. -/
def attrGet (attrs : AttrMap) (k : String) : Option AttrValue :=
  attrs.foldl (fun acc p => if p.1 = k then some p.2 else acc) none

/-- Raw OTLP attribute value as it appears on the wire: a tagged union with
at most one tag set.  `intValue` carries the JSON string form of an int64. -/
structure RawValue where
  stringValue : Option String := none
  intValue : Option String := none
  doubleValue : Option ℚ := none
  boolValue : Option Bool := none
deriving DecidableEq, Repr

/-- Modelled from the spec: the attribute decoder of src/sessionHandler.js
(absent from the sources), §4.1 of the spec and the reference implementation
in test/helpers.test.js: first present tag wins in the order string, int,
double, bool; the string form of an int is parsed with `parseInt`; unknown
or empty tags decode to the null sentinel. -/
def extractAttributeVal (v : RawValue) : AttrValue :=
  match v.stringValue with
  | some s => .str s
  | none =>
    match v.intValue with
    | some s =>
        match jsParseIntStr s with
        | some n => .num (n : ℚ)
        | none => .nan
    | none =>
      match v.doubleValue with
      | some d => .num d
      | none =>
        match v.boolValue with
        | some b => .bool b
        | none => .null

/-- Modelled from the spec: the bag decoder `extractAttributesArray` of
src/sessionHandler.js (absent from the sources): each `{key, value}` record
is decoded and assigned into the bag, last write winning on duplicates. -/
def extractAttributesArray (l : List (String × RawValue)) : AttrMap :=
  l.map (fun p => (p.1, extractAttributeVal p.2))

/-- Entry appended to the `toolDecisions` list of a session by the
`claude_code.code_edit_tool.decision` metric path. -/
structure DecisionEntry where
  decision : AttrValue
  tool : AttrValue
  language : AttrValue
  count : AttrValue
  timestamp : ℚ
deriving DecidableEq, Repr

/-- Backend (Langfuse) entity created by the processors: a trace, a
generation attached to a trace, or an event with a severity level. -/
inductive BackendEntity where
  | trace (name : String) (sessionId : String)
  | generation (traceId : String)
  | event (name : String) (traceId : String) (level : String)
deriving DecidableEq, Repr

/-- Per-session mutable state, as read and written by the processors.  The
identity fields hold the decoded attribute value first stored (or `none`
while unset); `commitCount` and `prCount` are `Option ℤ` with `none`
standing for `NaN`, which `+=` of an unparseable `parseInt` result can
produce. -/
structure Session where
  sessionId : String := ""
  organizationId : Option AttrValue := none
  userAccountUuid : Option AttrValue := none
  userEmail : Option AttrValue := none
  terminalType : Option AttrValue := none
  appVersion : Option AttrValue := none
  totalCost : ℚ := 0
  inputTokens : ℚ := 0
  outputTokens : ℚ := 0
  cacheReadTokens : ℚ := 0
  cacheCreationTokens : ℚ := 0
  linesAdded : ℚ := 0
  linesRemoved : ℚ := 0
  apiCallCount : ℕ := 0
  toolResultCount : ℕ := 0
  apiErrorCount : ℕ := 0
  commitCount : Option ℤ := some 0
  prCount : Option ℤ := some 0
  activeTime : ℚ := 0
  sessionStarted : Bool := false
  toolDecisions : List DecisionEntry := []
  conversationIndex : ℕ := 0
  currentTrace : Option String := none
  hasLangfuse : Bool := true
deriving DecidableEq, Repr

/-- Addition on possibly-`NaN` integers: `NaN` absorbs. -/
def optAdd (a b : Option ℤ) : Option ℤ :=
  match a, b with
  | some x, some y => some (x + y)
  | _, _ => none

/-- JavaScript `o || d` for an optional number against a numeric literal
(`0` and `NaN` are falsy; `none` models absence). -/
def jsNumOr (o : Option ℚ) (d : ℚ) : ℚ :=
  match o with
  | some x => if x ≠ 0 then x else d
  | none => d

/-- OTLP metric datapoint as consumed by the metric mapper: `asInt` arrives
as the JSON string form of an int64, `asDouble` as a number. -/
structure DataPoint where
  asInt : Option String := none
  asDouble : Option ℚ := none
  timeUnixNano : ℚ := 0
deriving DecidableEq, Repr

/-- OTLP metric header: only the name is consulted by the mapper. -/
structure Metric where
  name : String
deriving DecidableEq, Repr

/-- Result value returned by the metric mapper (the object literals built by
the `process*Metric` functions), or dropped for unknown names. -/
inductive MetricResult where
  | cost (cost : ℚ) (model : AttrValue) (timestamp : ℚ)
  | token (tokens : ℚ) (tokenType : AttrValue) (model : AttrValue) (timestamp : ℚ)
  | linesOfCode (lines : ℚ) (changeType : AttrValue) (timestamp : ℚ)
  | commit (commits : Option ℤ) (timestamp : ℚ)
  | toolDecision (decision : AttrValue) (tool : AttrValue) (language : AttrValue)
      (count : AttrValue) (timestamp : ℚ)
  | sessionStart (timestamp : ℚ)
  | activeTime (activeTime : ℚ) (timestamp : ℚ)
  | pullRequest (prCount : Option ℤ) (timestamp : ℚ)
deriving DecidableEq, Repr

/-- Output of one metric-mapper call: the returned value (`none` for a
dropped record), the mutated session, and the backend entities created. -/
structure MetricOut where
  result : Option MetricResult
  session : Session
  entities : List BackendEntity
deriving DecidableEq, Repr

/-- Value `parseInt(dataPoint.asInt || dataPoint.asDouble || "0", 10)`
shared by the commit-count and pull-request-count paths of
src/metricsProcessor.js. -/
def countParse (dp : DataPoint) : Option ℤ :=
  match dp.asInt with
  | some s =>
      if s ≠ "" then jsParseIntStr s
      else
        match dp.asDouble with
        | some d => if d ≠ 0 then some (ratTrunc d) else jsParseIntStr "0"
        | none => jsParseIntStr "0"
  | none =>
      match dp.asDouble with
      | some d => if d ≠ 0 then some (ratTrunc d) else jsParseIntStr "0"
      | none => jsParseIntStr "0"

/-- Datapoint value as §4.3 of the spec describes it: `asDouble` or the
parsed string form of `asInt`, defaulting to 0.  Used only by the
spec-modelled session-handler mutation below. -/
def dataPointValue (dp : DataPoint) : ℚ :=
  match dp.asDouble with
  | some d => d
  | none =>
    match dp.asInt with
    | some s => ((jsParseIntStr s).getD 0 : ℤ)
    | none => 0

/-- Modelled from the spec: `session.processMetric` of
src/sessionHandler.js (absent from the sources).  Per §4.3 it performs the
session aggregate mutations that the metricsProcessor functions state are
"handled by session.processMetric()": cost, token and lines-of-code
accumulation.  The commit, pull-request, active-time, session-start and
tool-decision mutations are done locally in src/metricsProcessor.js, and
unknown metric names are ignored. -/
def sessionProcessMetric (metricName : String) (dp : DataPoint) (attrs : AttrMap)
    (s : Session) : Session :=
  let v := dataPointValue dp
  match metricName with
  | "claude_code.cost.usage" => { s with totalCost := s.totalCost + v }
  | "claude_code.token.usage" =>
      match attrGet attrs "type" with
      | some (.str "input") => { s with inputTokens := s.inputTokens + v }
      | some (.str "output") => { s with outputTokens := s.outputTokens + v }
      | some (.str "cacheRead") => { s with cacheReadTokens := s.cacheReadTokens + v }
      | some (.str "cacheCreation") =>
          { s with cacheCreationTokens := s.cacheCreationTokens + v }
      | _ => s
  | "claude_code.lines_of_code.count" =>
      match attrGet attrs "type" with
      | some (.str "added") => { s with linesAdded := s.linesAdded + v }
      | some (.str "removed") => { s with linesRemoved := s.linesRemoved + v }
      | _ => s
  | _ => s

/-- Embedding of `processCostMetric` (src/metricsProcessor.js:61): the local
value is `dataPoint.asDouble || 0`; the session aggregate is handled by
`session.processMetric`. -/
def processCostMetric (dp : DataPoint) (attrs : AttrMap) (timestamp : ℚ)
    (s : Session) : MetricOut :=
  let cost := jsNumOr dp.asDouble 0
  let model := jsOrD (attrGet attrs "model") (.str "unknown")
  { result := some (.cost cost model timestamp), session := s, entities := [] }

/-- Embedding of `processTokenMetric` (src/metricsProcessor.js:84): the local
value is `dataPoint.asDouble || 0`. -/
def processTokenMetric (dp : DataPoint) (attrs : AttrMap) (timestamp : ℚ)
    (s : Session) : MetricOut :=
  let tokens := jsNumOr dp.asDouble 0
  let tokenType := jsOrD (attrGet attrs "type") (.str "unknown")
  let model := jsOrD (attrGet attrs "model") (.str "unknown")
  { result := some (.token tokens tokenType model timestamp), session := s, entities := [] }

/-- Embedding of `processLinesOfCodeMetric` (src/metricsProcessor.js:109). -/
def processLinesOfCodeMetric (dp : DataPoint) (attrs : AttrMap) (timestamp : ℚ)
    (s : Session) : MetricOut :=
  let lines := jsNumOr dp.asDouble 0
  let changeType := jsOrD (attrGet attrs "type") (.str "unknown")
  { result := some (.linesOfCode lines changeType timestamp), session := s, entities := [] }

/-- Embedding of `processCommitMetric` (src/metricsProcessor.js:133):
`commits = parseInt(asInt || asDouble || "0", 10)`, a falsy `commitCount`
is initialised to 0, then `commitCount += commits`. -/
def processCommitMetric (dp : DataPoint) (_attrs : AttrMap) (timestamp : ℚ)
    (s : Session) : MetricOut :=
  let commits := countParse dp
  let init : Option ℤ :=
    match s.commitCount with
    | some n => if n = 0 then some 0 else some n
    | none => some 0
  let s1 := { s with commitCount := optAdd init commits }
  { result := some (.commit commits timestamp), session := s1, entities := [] }

/-- Value `dataPoint.asDouble || dataPoint.asInt || 1` of the tool-decision
metric path (src/metricsProcessor.js:167); when only `asInt` is present the
count is its raw string. -/
def decisionCount (dp : DataPoint) : AttrValue :=
  match dp.asDouble with
  | some d =>
      if d ≠ 0 then .num d
      else
        match dp.asInt with
        | some i => if i ≠ "" then .str i else .num 1
        | none => .num 1
  | none =>
      match dp.asInt with
      | some i => if i ≠ "" then .str i else .num 1
      | none => .num 1

/-- Embedding of `processToolDecisionMetric` (src/metricsProcessor.js:163):
always appends `{decision, tool, language, count, timestamp}` to the
the `toolDecisions` list of the session, and emits a `code-edit-decision` backend event
when a current trace exists, level DEFAULT iff the decision is accept. -/
def processToolDecisionMetric (dp : DataPoint) (attrs : AttrMap) (timestamp : ℚ)
    (s : Session) : MetricOut :=
  let decision := jsOrD (attrGet attrs "decision") (.str "unknown")
  let tool := jsOrD (attrGet attrs "tool") (.str "unknown")
  let language := jsOrD (attrGet attrs "language") (.str "unknown")
  let count := decisionCount dp
  let entry : DecisionEntry :=
    { decision := decision, tool := tool, language := language,
      count := count, timestamp := timestamp }
  let s1 := { s with toolDecisions := s.toolDecisions ++ [entry] }
  let ents : List BackendEntity :=
    match s.currentTrace with
    | some t =>
        if s.hasLangfuse then
          [.event "code-edit-decision" t
            (if jsStrictEq decision (.str "accept") then "DEFAULT" else "WARNING")]
        else []
    | none => []
  { result := some (.toolDecision decision tool language count timestamp),
    session := s1, entities := ents }

/-- Embedding of `processSessionMetric` (src/metricsProcessor.js:226). -/
def processSessionMetric (_dp : DataPoint) (_attrs : AttrMap) (timestamp : ℚ)
    (s : Session) : MetricOut :=
  { result := some (.sessionStart timestamp),
    session := { s with sessionStarted := true }, entities := [] }

/-- Embedding of `processActiveTimeMetric` (src/metricsProcessor.js:244):
`activeTime = dataPoint.asDouble || 0`, last write wins on the session. -/
def processActiveTimeMetric (dp : DataPoint) (_attrs : AttrMap) (timestamp : ℚ)
    (s : Session) : MetricOut :=
  let activeTime := jsNumOr dp.asDouble 0
  { result := some (.activeTime activeTime timestamp),
    session := { s with activeTime := activeTime }, entities := [] }

/-- Embedding of `processPullRequestMetric` (src/metricsProcessor.js:264):
`prCount = parseInt(asInt || asDouble || "0", 10)` and
`session.prCount = (session.prCount || 0) + prCount`. -/
def processPullRequestMetric (dp : DataPoint) (_attrs : AttrMap) (timestamp : ℚ)
    (s : Session) : MetricOut :=
  let prCount := countParse dp
  let base : Option ℤ :=
    match s.prCount with
    | some n => if n = 0 then some 0 else some n
    | none => some 0
  let s1 := { s with prCount := optAdd base prCount }
  { result := some (.pullRequest prCount timestamp), session := s1, entities := [] }

/-- Embedding of `processMetric` (src/metricsProcessor.js:18): the session
session handler `processMetric` runs first, then the name dispatch; unknown names
return null. -/
def processMetric (metric : Metric) (dp : DataPoint) (attrs : AttrMap)
    (s : Session) : MetricOut :=
  let timestamp := dp.timeUnixNano / 1000000
  let s1 := sessionProcessMetric metric.name dp attrs s
  match metric.name with
  | "claude_code.cost.usage" => processCostMetric dp attrs timestamp s1
  | "claude_code.token.usage" => processTokenMetric dp attrs timestamp s1
  | "claude_code.lines_of_code.count" => processLinesOfCodeMetric dp attrs timestamp s1
  | "claude_code.commit.count" => processCommitMetric dp attrs timestamp s1
  | "claude_code.code_edit_tool.decision" => processToolDecisionMetric dp attrs timestamp s1
  | "claude_code.session.count" => processSessionMetric dp attrs timestamp s1
  | "claude_code.active_time.total" => processActiveTimeMetric dp attrs timestamp s1
  | "claude_code.pr.count" => processPullRequestMetric dp attrs timestamp s1
  | "claude_code.pull_request.count" => processPullRequestMetric dp attrs timestamp s1
  | _ => { result := none, session := s1, entities := [] }

/-- OTLP log record as consumed by the event mapper: `body` stands for
`body?.stringValue`, and attributes arrive as raw key/value records. -/
structure LogRecord where
  body : Option String := none
  timeUnixNano : ℚ := 0
  attributes : List (String × RawValue) := []
deriving DecidableEq, Repr

/-- Standard attributes extracted at the top of `processEvent`
(src/eventProcessor.js:25).  The ISO rendering of the OTLP timestamp is not
modelled; `timestampMs` carries the millisecond value it formats. -/
structure StandardAttrs where
  sessionId : AttrValue
  organizationId : Option AttrValue
  userAccountUuid : Option AttrValue
  userEmail : Option AttrValue
  terminalType : Option AttrValue
  appVersion : Option AttrValue
  timestampMs : ℚ
deriving DecidableEq, Repr

/-- Return value of the event mapper: the object literal each `process*`
function returns (standard attributes omitted; no claim reads them). -/
inductive EventResult where
  | userPrompt (prompt : AttrValue) (promptLength : Option ℤ)
  | apiRequest (model : AttrValue) (inputTokens outputTokens : Option ℤ)
      (cacheReadTokens cacheCreationTokens : Option ℤ) (costUsd : Option ℚ)
      (durationMs : Option ℤ) (requestId : Option AttrValue)
  | apiError (errorMessage : AttrValue) (statusCode : Option ℤ) (model : AttrValue)
      (requestId : Option AttrValue)
  | toolResult (toolName : AttrValue) (success : Bool) (durationMs : Option ℤ)
  | toolDecision (decision : AttrValue) (source : AttrValue) (toolName : AttrValue)
deriving DecidableEq, Repr

/-- Output of one event-mapper call. -/
structure EventOut where
  result : Option EventResult
  session : Session
  entities : List BackendEntity
deriving DecidableEq, Repr

/-- Modelled from the spec: `session.handleUserPrompt` of
src/sessionHandler.js (absent from the sources).  Per §4.2 it opens a
conversation: increments the 1-based conversation index, creates a backend
trace named `conversation-<N>` and stores its handle as the current trace.
Identity fields and aggregates are untouched. -/
def handleUserPrompt (s : Session) : Session × List BackendEntity :=
  let n := s.conversationIndex + 1
  let name := "conversation-" ++ toString n
  ({ s with conversationIndex := n, currentTrace := some name },
   [.trace name s.sessionId])

/-- Modelled from the spec: `session.handleApiRequest` of
src/sessionHandler.js (absent from the sources).  Per §4.2 it opens a
synthetic conversation when no trace is current, creates a generation under
the current trace, adds the token counts and the cost to the session
aggregates and increments `api_call_count`.  A `NaN` numeric argument
(`none`) contributes nothing. -/
def handleApiRequest (inputTokens outputTokens cacheReadTokens cacheCreationTokens : Option ℤ)
    (costUsd : Option ℚ) (s : Session) : Session × List BackendEntity :=
  let (s1, ents) :=
    match s.currentTrace with
    | some _ => (s, [])
    | none => handleUserPrompt s
  let s2 :=
    { s1 with
      inputTokens := s1.inputTokens + ((inputTokens.getD 0 : ℤ) : ℚ),
      outputTokens := s1.outputTokens + ((outputTokens.getD 0 : ℤ) : ℚ),
      cacheReadTokens := s1.cacheReadTokens + ((cacheReadTokens.getD 0 : ℤ) : ℚ),
      cacheCreationTokens := s1.cacheCreationTokens + ((cacheCreationTokens.getD 0 : ℤ) : ℚ),
      totalCost := s1.totalCost + costUsd.getD 0,
      apiCallCount := s1.apiCallCount + 1 }
  (s2, ents ++ [.generation (s1.currentTrace.getD "")])

/-- Modelled from the spec: `session.handleApiError` of
src/sessionHandler.js (absent from the sources).  Per §4.2 it increments
`api_error_count` and emits a backend event at level ERROR under the
current conversation. -/
def handleApiError (s : Session) : Session × List BackendEntity :=
  ({ s with apiErrorCount := s.apiErrorCount + 1 },
   [.event "api-error" (s.currentTrace.getD "") "ERROR"])

/-- Rendering of an attribute value inside a JavaScript template literal
(only string values occur in the names the claims concern). -/
def attrTemplate : AttrValue → String
  | .str s => s
  | .num q => toString q
  | .bool b => if b then "true" else "false"
  | .nan => "NaN"
  | .null => "null"

/-- Modelled from the spec: `session.handleToolResult` of
src/sessionHandler.js (absent from the sources).  Per §4.2 it increments
`tool_result_count` and emits a backend event named `tool-<tool_name>` at
level DEFAULT. -/
def handleToolResult (toolName : AttrValue) (s : Session) : Session × List BackendEntity :=
  ({ s with toolResultCount := s.toolResultCount + 1 },
   [.event ("tool-" ++ attrTemplate toolName) (s.currentTrace.getD "") "DEFAULT"])

/-- Embedding of `processUserPrompt` (src/eventProcessor.js:79):
`prompt = attrs.prompt || attrs["user.prompt"] || ""` and
`promptLength = parseInt(attrs.prompt_length || attrs["prompt.length"] || "0", 10)`. -/
def processUserPrompt (attrs : AttrMap) (_std : StandardAttrs) (_timestamp : ℚ)
    (s : Session) : EventOut :=
  let prompt := jsOrD (jsOr (attrGet attrs "prompt") (attrGet attrs "user.prompt")) (.str "")
  let promptLength := jsParseIntVal
    (jsOrD (jsOr (attrGet attrs "prompt_length") (attrGet attrs "prompt.length")) (.str "0"))
  let (s1, ents) := handleUserPrompt s
  { result := some (.userPrompt prompt promptLength), session := s1, entities := ents }

/-- Value `parseFloat(attrs.cost_usd || attrs.cost || attrs["cost.usd"] || "0")`
computed by `processApiRequest` (src/eventProcessor.js:134). -/
def costUsdOf (attrs : AttrMap) : Option ℚ :=
  jsParseFloatVal
    (jsOrD (jsOr (attrGet attrs "cost_usd") (jsOr (attrGet attrs "cost") (attrGet attrs "cost.usd")))
      (.str "0"))

/-- Embedding of `processApiRequest` (src/eventProcessor.js:128). -/
def processApiRequest (attrs : AttrMap) (_std : StandardAttrs) (_timestamp : ℚ)
    (s : Session) : EventOut :=
  let model := jsOrD (jsOr (attrGet attrs "model") (attrGet attrs "model.name")) (.str "unknown")
  let inputTokens := jsParseIntVal
    (jsOrD (jsOr (attrGet attrs "input_tokens") (attrGet attrs "tokens.input")) (.str "0"))
  let outputTokens := jsParseIntVal
    (jsOrD (jsOr (attrGet attrs "output_tokens") (attrGet attrs "tokens.output")) (.str "0"))
  let cacheReadTokens := jsParseIntVal
    (jsOrD (jsOr (attrGet attrs "cache_read_tokens") (attrGet attrs "cache.read_tokens")) (.str "0"))
  let cacheCreationTokens := jsParseIntVal
    (jsOrD (jsOr (attrGet attrs "cache_creation_tokens") (attrGet attrs "cache.creation_tokens"))
      (.str "0"))
  let costUsd := costUsdOf attrs
  let durationMs := jsParseIntVal
    (jsOrD (jsOr (attrGet attrs "duration_ms") (attrGet attrs "duration")) (.str "0"))
  let requestId := jsOr (attrGet attrs "request_id") (attrGet attrs "request.id")
  let (s1, ents) :=
    handleApiRequest inputTokens outputTokens cacheReadTokens cacheCreationTokens costUsd s
  { result := some (.apiRequest model inputTokens outputTokens cacheReadTokens
      cacheCreationTokens costUsd durationMs requestId),
    session := s1, entities := ents }

/-- Embedding of `processApiError` (src/eventProcessor.js:190):
`errorMessage = attrs.error_message || attrs.error || attrs.message || "Unknown error"`
and `statusCode = parseInt(attrs.status_code || attrs.status || "0", 10)`. -/
def processApiError (attrs : AttrMap) (_std : StandardAttrs) (_timestamp : ℚ)
    (s : Session) : EventOut :=
  let errorMessage := jsOrD
    (jsOr (attrGet attrs "error_message") (jsOr (attrGet attrs "error") (attrGet attrs "message")))
    (.str "Unknown error")
  let statusCode := jsParseIntVal
    (jsOrD (jsOr (attrGet attrs "status_code") (attrGet attrs "status")) (.str "0"))
  let model := jsOrD (attrGet attrs "model") (.str "unknown")
  let requestId := jsOr (attrGet attrs "request_id") (attrGet attrs "request.id")
  let (s1, ents) := handleApiError s
  { result := some (.apiError errorMessage statusCode model requestId),
    session := s1, entities := ents }

/-- Embedding of `processToolResult` (src/eventProcessor.js:233):
`toolName = attrs.tool_name || attrs.tool || attrs.name || "unknown"`,
`success = attrs.success === "true" || attrs.success === true`,
`durationMs = parseInt(attrs.duration_ms || attrs.duration || "0", 10)`. -/
def processToolResult (attrs : AttrMap) (_std : StandardAttrs) (_timestamp : ℚ)
    (s : Session) : EventOut :=
  let toolName := jsOrD
    (jsOr (attrGet attrs "tool_name") (jsOr (attrGet attrs "tool") (attrGet attrs "name")))
    (.str "unknown")
  let success :=
    (match attrGet attrs "success" with
     | some v => jsStrictEq v (.str "true") || jsStrictEq v (.bool true)
     | none => false)
  let durationMs := jsParseIntVal
    (jsOrD (jsOr (attrGet attrs "duration_ms") (attrGet attrs "duration")) (.str "0"))
  let (s1, ents) := handleToolResult toolName s
  { result := some (.toolResult toolName success durationMs),
    session := s1, entities := ents }

/-- Embedding of `processToolDecision` (src/eventProcessor.js:273): no
session mutation; a `tool-permission-decision` backend event is created only
when a current trace exists, level DEFAULT iff the decision is accept. -/
def processToolDecision (attrs : AttrMap) (_std : StandardAttrs) (_timestamp : ℚ)
    (s : Session) : EventOut :=
  let decision := jsOrD (attrGet attrs "decision") (.str "unknown")
  let source := jsOrD (attrGet attrs "source") (.str "unknown")
  let toolName := jsOrD (jsOr (attrGet attrs "tool_name") (attrGet attrs "tool")) (.str "unknown")
  let ents : List BackendEntity :=
    match s.currentTrace with
    | some t =>
        if s.hasLangfuse then
          [.event "tool-permission-decision" t
            (if jsStrictEq decision (.str "accept") then "DEFAULT" else "WARNING")]
        else []
    | none => []
  { result := some (.toolDecision decision source toolName),
    session := s, entities := ents }

/-- Standard attribute extraction at the top of `processEvent`
(src/eventProcessor.js:25). -/
def mkStandardAttrs (attrs : AttrMap) (s : Session) (timestampMs : ℚ) : StandardAttrs :=
  { sessionId := jsOrD (attrGet attrs "session.id") (.str s.sessionId),
    organizationId := attrGet attrs "organization.id",
    userAccountUuid := attrGet attrs "user.account_uuid",
    userEmail := attrGet attrs "user.email",
    terminalType := attrGet attrs "terminal.type",
    appVersion := attrGet attrs "app.version",
    timestampMs := timestampMs }

/-- Identity capture of `processEvent` (src/eventProcessor.js:35): each of
the four fields is stored when the incoming value is truthy and the session
field is still falsy.  `app.version` is extracted but never stored. -/
def absorbStandardAttrs (std : StandardAttrs) (s : Session) : Session :=
  let s1 := if attrTruthyOpt std.organizationId && !attrTruthyOpt s.organizationId
    then { s with organizationId := std.organizationId } else s
  let s2 := if attrTruthyOpt std.userAccountUuid && !attrTruthyOpt s1.userAccountUuid
    then { s1 with userAccountUuid := std.userAccountUuid } else s1
  let s3 := if attrTruthyOpt std.userEmail && !attrTruthyOpt s2.userEmail
    then { s2 with userEmail := std.userEmail } else s2
  let s4 := if attrTruthyOpt std.terminalType && !attrTruthyOpt s3.terminalType
    then { s3 with terminalType := std.terminalType } else s3
  s4

/-- Embedding of `processEvent` (src/eventProcessor.js:19): attribute
extraction, identity capture, then dispatch on the body string; unknown
bodies return null. -/
def processEvent (lr : LogRecord) (s : Session) : EventOut :=
  let attrs := extractAttributesArray lr.attributes
  let timestamp := lr.timeUnixNano / 1000000
  let std := mkStandardAttrs attrs s timestamp
  let s1 := absorbStandardAttrs std s
  match lr.body with
  | some "claude_code.user_prompt" => processUserPrompt attrs std timestamp s1
  | some "claude_code.api_request" => processApiRequest attrs std timestamp s1
  | some "claude_code.api_error" => processApiError attrs std timestamp s1
  | some "claude_code.tool_result" => processToolResult attrs std timestamp s1
  | some "claude_code.tool_decision" => processToolDecision attrs std timestamp s1
  | _ => { result := none, session := s1, entities := [] }

/-- Characters the session-key sanitizer keeps: the class `[a-zA-Z0-9-]`. -/
def allowedChar (c : Char) : Bool :=
  ('a' ≤ c && c ≤ 'z') || ('A' ≤ c && c ≤ 'Z') || ('0' ≤ c && c ≤ '9') || c = '-'

/-- The replacement `.replace(/[^a-zA-Z0-9-]/g, "-")`: every character
outside `[a-zA-Z0-9-]` becomes `-`. -/
def sanitize (s : String) : String :=
  ⟨s.data.map (fun c => if allowedChar c then c else '-')⟩

/-- Hour window `new Date(timestamp).toISOString().substring(0, 13)` of
`generateSessionId`: `toISOString` is the identity on a canonical ISO-8601
UTC millisecond timestamp, so the embedding takes the timestamp already in
that form and keeps its first 13 characters (`YYYY-MM-DDTHH`). -/
def isoHourWindow (s : String) : String :=
  ⟨s.data.take 13⟩

/-- Embedding of `generateSessionId` (test/helpers.test.js:162), the derived
session key for records without a `session.id`: the user id and the hour
window joined by `-`, with the whole string sanitized. -/
def generateSessionId (userId : String) (timestamp : String) : String :=
  sanitize (userId ++ "-" ++ isoHourWindow timestamp)

/-- Success flag carried by a tool-result mapping, if the output is one. -/
def resultSuccess (o : EventOut) : Option Bool :=
  match o.result with
  | some (.toolResult _ b _) => some b
  | _ => none

/-- The five first-write-wins identity fields of a session. -/
def identityOf (s : Session) :
    Option AttrValue × Option AttrValue × Option AttrValue × Option AttrValue ×
      Option AttrValue :=
  (s.organizationId, s.userAccountUuid, s.userEmail, s.terminalType, s.appVersion)

/-- One ingested record: a log record for the event mapper or a metric
datapoint (with its extracted attribute bag) for the metric mapper. -/
inductive IngestRecord where
  | log (lr : LogRecord)
  | metric (m : Metric) (dp : DataPoint) (attrs : AttrMap)

/-- Session mutation performed by ingesting one record. -/
def ingest (r : IngestRecord) (s : Session) : Session :=
  match r with
  | .log lr => (processEvent lr s).session
  | .metric m dp attrs => (processMetric m dp attrs s).session

/-- Session mutation performed by ingesting a sequence of records in order. -/
def ingestAll (rs : List IngestRecord) (s : Session) : Session :=
  rs.foldl (fun s r => ingest r s) s

/-- Well-formedness of the numeric counters: neither `commitCount` nor
`prCount` holds `NaN` (true of every session the registry creates, which
starts both at 0). -/
def sessionWF (s : Session) : Prop :=
  s.commitCount ≠ none ∧ s.prCount ≠ none

/-- The ingested record carries no negative (and no unparseable) amount for
the monotone aggregates: an api_request log must carry a non-negative
parsed cost, a commit or pull-request datapoint a non-negative parsed
count, and a cost-usage datapoint a non-negative value. -/
def recordNonNeg : IngestRecord → Prop
  | .log lr =>
      lr.body = some "claude_code.api_request" →
        ∃ q, costUsdOf (extractAttributesArray lr.attributes) = some q ∧ 0 ≤ q
  | .metric m dp _ =>
      ((m.name = "claude_code.commit.count" ∨ m.name = "claude_code.pr.count" ∨
          m.name = "claude_code.pull_request.count") →
        ∃ v, countParse dp = some v ∧ 0 ≤ v) ∧
      (m.name = "claude_code.cost.usage" → 0 ≤ dataPointValue dp)

lemma jsNumOr_zero (o : Option ℚ) : jsNumOr o 0 = o.getD 0 := by
  cases o with
  | none => rfl
  | some x =>
      by_cases hx : x = 0 <;> simp [jsNumOr, hx]

/-- C1 (amended): the session mutation of a cost.usage or token.usage
datapoint does use the value taken from `asDouble` or the parsed string form
of `asInt`, defaulting to 0 when both are absent (that aggregation lives in
the spec-modelled `sessionProcessMetric`, per spec section 4.3), so a
datapoint carrying only `asInt: "250"` contributes 250 there; only the
active_time.total path deviates, storing `asDouble || 0` in
`processActiveTimeMetric` and ignoring `asInt`, so an asInt-only datapoint
stores 0. -/
theorem C1_metric_value_extraction (dp : DataPoint) (attrs : AttrMap) (s : Session) :
    ((processMetric { name := "claude_code.cost.usage" } dp attrs s).session.totalCost =
      s.totalCost + dataPointValue dp)
  ∧ (attrGet attrs "type" = some (AttrValue.str "input") →
      (processMetric { name := "claude_code.token.usage" } dp attrs s).session.inputTokens =
        s.inputTokens + dataPointValue dp)
  ∧ (∀ d : ℚ, dp.asDouble = some d → dataPointValue dp = d)
  ∧ (∀ (i : String) (n : ℤ), dp.asDouble = none → dp.asInt = some i →
      jsParseIntStr i = some n → dataPointValue dp = (n : ℚ))
  ∧ (dp.asDouble = none → dp.asInt = none → dataPointValue dp = 0)
  ∧ ((processMetric { name := "claude_code.active_time.total" } dp attrs
        s).session.activeTime = dp.asDouble.getD 0) := by
  refine ⟨rfl, ?_, ?_, ?_, ?_, ?_⟩
  · intro h
    simp [processMetric, sessionProcessMetric, processTokenMetric, h]
  · intro d hd
    simp [dataPointValue, hd]
  · intro i n hD hI hp
    simp [dataPointValue, hD, hI, hp]
  · intro hD hI
    simp [dataPointValue, hD, hI]
  · rw [← jsNumOr_zero]
    rfl

/-- Witness for C1: a token.usage datapoint carrying only `asInt: "250"` and
type input adds 250 to the input-token counter, and the datapoint value
evaluates per tag: parsed `asInt` when `asDouble` is absent, `asDouble` when
present, 0 when both are absent. -/
theorem C1_metric_value_extraction_witness :
    ((processMetric { name := "claude_code.token.usage" } { asInt := some "250" }
        [("type", AttrValue.str "input")] {}).session.inputTokens =
      ({} : Session).inputTokens + dataPointValue { asInt := some "250" })
  ∧ dataPointValue { asInt := some "250" } = ((250 : ℤ) : ℚ)
  ∧ dataPointValue { asDouble := some 1 } = 1
  ∧ dataPointValue {} = 0 :=
  ⟨(C1_metric_value_extraction { asInt := some "250" }
      [("type", AttrValue.str "input")] {}).2.1 (by decide),
   (C1_metric_value_extraction { asInt := some "250" } [] {}).2.2.2.1 "250" 250 rfl rfl
      (by decide),
   (C1_metric_value_extraction { asDouble := some 1 } [] {}).2.2.1 1 rfl,
   (C1_metric_value_extraction {} [] {}).2.2.2.2.1 rfl rfl⟩

/-- Counterexample to C1 as stated: an active_time.total datapoint carrying
only `asInt: "250"` sets the active time of the session to 0, not 250. -/
theorem C1_counterexample_asInt_dropped :
    (processMetric { name := "claude_code.active_time.total" } { asInt := some "250" } []
        {}).session.activeTime = 0
  ∧ (0 : ℚ) ≠ 250 :=
  ⟨rfl, by norm_num⟩

/-- C7: a `claude_code.pr.count` metric and a `claude_code.pull_request.count`
metric are processed identically: same returned value, same session
mutation, same backend entities, for every datapoint and session. -/
theorem C7_pull_request_aliases (dp : DataPoint) (attrs : AttrMap) (s : Session) :
    processMetric { name := "claude_code.pr.count" } dp attrs s =
      processMetric { name := "claude_code.pull_request.count" } dp attrs s := rfl

/-- C10: the tool-result success flag is true exactly when the `success`
attribute is the boolean `true` or the exact string `"true"`; every other
value, and an absent attribute, maps to false. -/
theorem C10_success_mapping (attrs : AttrMap) (std : StandardAttrs) (ts : ℚ)
    (s : Session) :
    resultSuccess (processToolResult attrs std ts s) =
      some (decide (attrGet attrs "success" = some (AttrValue.str "true") ∨
                    attrGet attrs "success" = some (AttrValue.bool true))) := by
  unfold resultSuccess processToolResult
  cases h : attrGet attrs "success" with
  | none => simp
  | some v =>
      cases v with
      | str a =>
          by_cases ha : a = "true" <;> simp [jsStrictEq, ha]
      | num q => simp [jsStrictEq]
      | bool b => cases b <;> simp [jsStrictEq]
      | nan => simp [jsStrictEq]
      | null => simp [jsStrictEq]

lemma sanitize_append (a b : String) : sanitize (a ++ b) = sanitize a ++ sanitize b := by
  cases a with
  | mk as =>
    cases b with
    | mk bs =>
      show String.mk ((as ++ bs).map (fun c => if allowedChar c then c else '-')) =
        String.mk (as.map (fun c => if allowedChar c then c else '-') ++
          bs.map (fun c => if allowedChar c then c else '-'))
      rw [List.map_append]

lemma sanitize_fixed (s : String) (h : ∀ c ∈ s.data, allowedChar c = true) :
    sanitize s = s := by
  cases s with
  | mk l =>
    show String.mk (l.map (fun c => if allowedChar c then c else '-')) = String.mk l
    congr 1
    have hid : ∀ c ∈ l, (fun c => if allowedChar c then c else '-') c = id c := by
      intro c hc
      simp [h c hc]
    rw [List.map_congr_left hid, List.map_id]

/-- C2: for a record without a `session.id`, the derived session key equals
`sanitize(user.email) ++ "-" ++` the ISO hour window of the timestamp
(whenever that window consists of kept characters, as every canonical ISO
hour window `YYYY-MM-DDTHH` does); on the example inputs of the spec it is
`a-b-x-com-2024-01-15T10`. -/
theorem C2_session_key_derivation (userId ts : String)
    (h : ∀ c ∈ (isoHourWindow ts).data, allowedChar c = true) :
    generateSessionId userId ts = sanitize userId ++ "-" ++ isoHourWindow ts ∧
    generateSessionId "a.b@x.com" "2024-01-15T10:30:45.123Z" = "a-b-x-com-2024-01-15T10" := by
  constructor
  · unfold generateSessionId
    rw [sanitize_append, sanitize_append, sanitize_fixed _ h]
    rw [show sanitize "-" = "-" from rfl]
  · decide

/-- Witness for C2 at the example email of the spec and timestamp. -/
theorem C2_session_key_derivation_witness :
    (generateSessionId "a.b@x.com" "2024-01-15T10:30:45.123Z" =
      sanitize "a.b@x.com" ++ "-" ++ isoHourWindow "2024-01-15T10:30:45.123Z") ∧
    generateSessionId "a.b@x.com" "2024-01-15T10:30:45.123Z" = "a-b-x-com-2024-01-15T10" :=
  C2_session_key_derivation "a.b@x.com" "2024-01-15T10:30:45.123Z" (by decide)

lemma processEvent_unknown (lr : LogRecord) (s : Session)
    (hb1 : lr.body ≠ some "claude_code.user_prompt")
    (hb2 : lr.body ≠ some "claude_code.api_request")
    (hb3 : lr.body ≠ some "claude_code.api_error")
    (hb4 : lr.body ≠ some "claude_code.tool_result")
    (hb5 : lr.body ≠ some "claude_code.tool_decision") :
    processEvent lr s =
      { result := none,
        session := absorbStandardAttrs
          (mkStandardAttrs (extractAttributesArray lr.attributes) s
            (lr.timeUnixNano / 1000000)) s,
        entities := [] } := by
  simp only [processEvent]

lemma processMetric_unknown (m : Metric) (dp : DataPoint) (attrs : AttrMap) (s : Session)
    (hm : m.name ∉ ["claude_code.cost.usage", "claude_code.token.usage",
      "claude_code.lines_of_code.count", "claude_code.commit.count",
      "claude_code.code_edit_tool.decision", "claude_code.session.count",
      "claude_code.active_time.total", "claude_code.pr.count",
      "claude_code.pull_request.count"]) :
    processMetric m dp attrs s = { result := none, session := s, entities := [] } := by
  simp only [List.mem_cons, List.mem_singleton, not_or] at hm
  obtain ⟨hc, ht, hl, hcm, hd, hst, ha, hp, hpr, -⟩ := hm
  have hs : sessionProcessMetric m.name dp attrs s = s := by
    unfold sessionProcessMetric
    split
    next h => exact absurd h hc
    next h => exact absurd h ht
    next h => exact absurd h hl
    next => rfl
  simp only [processMetric, hs]

/-- C3 (amended): an unrecognized log body and an unrecognized metric name
both return null and create no backend entity; for a metric the session is
left unchanged, but a log record still passes through the standard-attribute
capture, which can populate unset identity fields before the body is
classified. -/
theorem C3_unknown_records_ignored (lr : LogRecord) (m : Metric) (dp : DataPoint)
    (attrs : AttrMap) (s : Session)
    (hb1 : lr.body ≠ some "claude_code.user_prompt")
    (hb2 : lr.body ≠ some "claude_code.api_request")
    (hb3 : lr.body ≠ some "claude_code.api_error")
    (hb4 : lr.body ≠ some "claude_code.tool_result")
    (hb5 : lr.body ≠ some "claude_code.tool_decision")
    (hm : m.name ∉ ["claude_code.cost.usage", "claude_code.token.usage",
      "claude_code.lines_of_code.count", "claude_code.commit.count",
      "claude_code.code_edit_tool.decision", "claude_code.session.count",
      "claude_code.active_time.total", "claude_code.pr.count",
      "claude_code.pull_request.count"]) :
    (processEvent lr s).result = none ∧ (processEvent lr s).entities = [] ∧
    (processEvent lr s).session =
      absorbStandardAttrs
        (mkStandardAttrs (extractAttributesArray lr.attributes) s
          (lr.timeUnixNano / 1000000)) s ∧
    (processMetric m dp attrs s).result = none ∧
    (processMetric m dp attrs s).entities = [] ∧
    (processMetric m dp attrs s).session = s := by
  have he := processEvent_unknown lr s hb1 hb2 hb3 hb4 hb5
  have hme := processMetric_unknown m dp attrs s hm
  rw [he, hme]
  exact ⟨rfl, rfl, rfl, rfl, rfl, rfl⟩

/-- Witness for C3: the concrete unknown body `unknown_event` and unknown
metric name `unknown.metric` on a fresh session. -/
theorem C3_unknown_records_ignored_witness :
    (processEvent { body := some "unknown_event", timeUnixNano := 0, attributes := [] }
        {}).result = none ∧
    (processEvent { body := some "unknown_event", timeUnixNano := 0, attributes := [] }
        {}).entities = [] ∧
    (processEvent { body := some "unknown_event", timeUnixNano := 0, attributes := [] }
        {}).session =
      absorbStandardAttrs (mkStandardAttrs (extractAttributesArray []) {} (0 / 1000000)) {} ∧
    (processMetric { name := "unknown.metric" } { asDouble := some 1 } [] {}).result = none ∧
    (processMetric { name := "unknown.metric" } { asDouble := some 1 } [] {}).entities = [] ∧
    (processMetric { name := "unknown.metric" } { asDouble := some 1 } [] {}).session = {} :=
  C3_unknown_records_ignored
    { body := some "unknown_event", timeUnixNano := 0, attributes := [] }
    { name := "unknown.metric" }
    { asDouble := some 1 } [] {}
    (by decide) (by decide) (by decide) (by decide) (by decide) (by decide)

/-- Counterexample to C3 as stated: an unrecognized log body carrying an
`organization.id` attribute still mutates the session, storing the identity
value, so "leaves the session state unchanged" fails. -/
theorem C3_counterexample_identity_absorbed :
    (processEvent { body := some "unknown_event", attributes := [("organization.id", { stringValue := some "org-1" })] }
        {}).result = none
  ∧ (processEvent { body := some "unknown_event", attributes := [("organization.id", { stringValue := some "org-1" })] }
        {}).session.organizationId = some (.str "org-1")
  ∧ ({} : Session).organizationId = none := by
  refine ⟨?_, ?_, rfl⟩ <;> decide

/-- C4 (amended): on a recognized log record each missing attribute is
defaulted, but the string defaults are per-field: `prompt` defaults to the
empty string and `error_message` to `"Unknown error"`, while `tool_name` and
`model` default to `"unknown"`; integer and float attributes default to 0
(via parsing the literal `"0"`) and the `success` boolean defaults to
false. -/
theorem C4_missing_attribute_defaults (attrs : AttrMap) (std : StandardAttrs) (ts : ℚ)
    (s : Session)
    (h : ∀ k ∈ ["prompt", "user.prompt", "prompt_length", "prompt.length",
      "error_message", "error", "message", "status_code", "status", "model", "model.name",
      "request_id", "request.id", "tool_name", "tool", "name", "success",
      "duration_ms", "duration", "input_tokens", "tokens.input", "output_tokens",
      "tokens.output", "cache_read_tokens", "cache.read_tokens", "cache_creation_tokens",
      "cache.creation_tokens", "cost_usd", "cost", "cost.usd"],
      attrGet attrs k = none) :
    (processUserPrompt attrs std ts s).result = some (.userPrompt (.str "") (some 0))
  ∧ (processApiError attrs std ts s).result =
      some (.apiError (.str "Unknown error") (some 0) (.str "unknown") none)
  ∧ (processToolResult attrs std ts s).result =
      some (.toolResult (.str "unknown") false (some 0))
  ∧ (processApiRequest attrs std ts s).result =
      some (.apiRequest (.str "unknown") (some 0) (some 0) (some 0) (some 0) (some 0)
        (some 0) none) := by
  have hint : jsParseIntVal (.str "0") = some 0 := by decide
  have hflt : jsParseFloatVal (.str "0") = some 0 := by decide
  refine ⟨?_, ?_, ?_, ?_⟩
  · simp [processUserPrompt, h "prompt" (by simp), h "user.prompt" (by simp),
      h "prompt_length" (by simp), h "prompt.length" (by simp), jsOr, jsOrD,
      attrTruthyOpt, hint]
  · simp [processApiError, h "error_message" (by simp), h "error" (by simp),
      h "message" (by simp), h "status_code" (by simp), h "status" (by simp),
      h "model" (by simp), h "request_id" (by simp), h "request.id" (by simp),
      jsOr, jsOrD, attrTruthyOpt, hint]
  · simp [processToolResult, h "tool_name" (by simp), h "tool" (by simp),
      h "name" (by simp), h "success" (by simp), h "duration_ms" (by simp),
      h "duration" (by simp), jsOr, jsOrD, attrTruthyOpt, hint]
  · simp [processApiRequest, costUsdOf, h "model" (by simp), h "model.name" (by simp),
      h "input_tokens" (by simp), h "tokens.input" (by simp),
      h "output_tokens" (by simp), h "tokens.output" (by simp),
      h "cache_read_tokens" (by simp), h "cache.read_tokens" (by simp),
      h "cache_creation_tokens" (by simp), h "cache.creation_tokens" (by simp),
      h "cost_usd" (by simp), h "cost" (by simp), h "cost.usd" (by simp),
      h "duration_ms" (by simp), h "duration" (by simp),
      h "request_id" (by simp), h "request.id" (by simp),
      jsOr, jsOrD, attrTruthyOpt, hint, hflt]

/-- Witness for C4: the empty attribute bag. -/
theorem C4_missing_attribute_defaults_witness :
    (processUserPrompt [] (mkStandardAttrs [] {} 0) 0 {}).result =
      some (.userPrompt (.str "") (some 0))
  ∧ (processApiError [] (mkStandardAttrs [] {} 0) 0 {}).result =
      some (.apiError (.str "Unknown error") (some 0) (.str "unknown") none)
  ∧ (processToolResult [] (mkStandardAttrs [] {} 0) 0 {}).result =
      some (.toolResult (.str "unknown") false (some 0))
  ∧ (processApiRequest [] (mkStandardAttrs [] {} 0) 0 {}).result =
      some (.apiRequest (.str "unknown") (some 0) (some 0) (some 0) (some 0) (some 0)
        (some 0) none) :=
  C4_missing_attribute_defaults [] (mkStandardAttrs [] {} 0) 0 {} (by decide)

/-- Counterexample to C4 as stated: a user_prompt record with no `prompt`
attribute maps the prompt to the empty string, not to `"unknown"`. -/
theorem C4_counterexample_prompt_empty :
    (processEvent { body := some "claude_code.user_prompt", attributes := [] }
        {}).result = some (.userPrompt (.str "") (some 0))
  ∧ AttrValue.str "" ≠ AttrValue.str "unknown" := by
  refine ⟨?_, ?_⟩ <;> decide

/-- C5 (amended): only the `claude_code.code_edit_tool.decision` metric path
appends to the `tool_decisions` list of the session — one entry
`{tool, decision, language, count, timestamp}`, whether or not a current
trace exists — while the `claude_code.tool_decision` log path leaves the
session untouched (it only emits a backend event when a trace is
current). -/
theorem C5_tool_decisions_append (dp : DataPoint) (attrs : AttrMap) (ts : ℚ)
    (s : Session) (std : StandardAttrs) :
    (processToolDecisionMetric dp attrs ts s).session.toolDecisions =
      s.toolDecisions ++
        [{ decision := jsOrD (attrGet attrs "decision") (.str "unknown"),
           tool := jsOrD (attrGet attrs "tool") (.str "unknown"),
           language := jsOrD (attrGet attrs "language") (.str "unknown"),
           count := decisionCount dp, timestamp := ts }]
  ∧ (processToolDecision attrs std ts s).session = s :=
  ⟨rfl, rfl⟩

/-- Counterexample to C5 as stated: a `claude_code.tool_decision` log record
appends nothing to `tool_decisions`; the session of a fresh processing run
still has the empty list. -/
theorem C5_counterexample_log_path_no_append :
    (processEvent { body := some "claude_code.tool_decision", attributes := [("decision", { stringValue := some "reject" }), ("tool_name", { stringValue := some "Edit" })] } {}).session.toolDecisions = []
  ∧ ({} : Session).toolDecisions = ([] : List DecisionEntry) := by
  refine ⟨?_, rfl⟩
  decide

lemma decision_level_eq (attrs : AttrMap) :
    (if jsStrictEq (jsOrD (attrGet attrs "decision") (.str "unknown")) (.str "accept")
      then "DEFAULT" else "WARNING") =
    (if attrGet attrs "decision" = some (AttrValue.str "accept")
      then "DEFAULT" else "WARNING") := by
  cases h : attrGet attrs "decision" with
  | none => simp [jsOrD, jsStrictEq]
  | some v =>
      cases v with
      | str a =>
          by_cases ha : a = "accept"
          · simp [jsOrD, jsStrictEq, attrTruthy, ha]
          · by_cases h0 : a = "" <;> simp [jsOrD, jsStrictEq, attrTruthy, ha, h0]
      | num q => by_cases hq : q = 0 <;> simp [jsOrD, jsStrictEq, attrTruthy, hq]
      | bool b => cases b <;> simp [jsOrD, jsStrictEq, attrTruthy]
      | nan => simp [jsOrD, jsStrictEq, attrTruthy]
      | null => simp [jsOrD, jsStrictEq, attrTruthy]

/-- C6: whenever a tool decision emits a backend event — the
`claude_code.tool_decision` log path or the `claude_code.code_edit_tool.decision`
metric path with a current trace — the level of the event is DEFAULT exactly when
the `decision` attribute is the string `"accept"`, and WARNING otherwise. -/
theorem C6_decision_event_level (attrs : AttrMap) (std : StandardAttrs) (ts : ℚ)
    (s : Session) (dp : DataPoint) :
    (∀ n t l, BackendEntity.event n t l ∈ (processToolDecision attrs std ts s).entities →
        l = if attrGet attrs "decision" = some (AttrValue.str "accept")
            then "DEFAULT" else "WARNING")
  ∧ (∀ n t l, BackendEntity.event n t l ∈ (processToolDecisionMetric dp attrs ts s).entities →
        l = if attrGet attrs "decision" = some (AttrValue.str "accept")
            then "DEFAULT" else "WARNING") := by
  constructor
  · intro n t l hmem
    rw [← decision_level_eq attrs]
    revert hmem
    simp only [processToolDecision]
    cases s.currentTrace with
    | none => intro hmem; simp at hmem
    | some tr =>
        by_cases hl : s.hasLangfuse <;> simp [hl]
  · intro n t l hmem
    rw [← decision_level_eq attrs]
    revert hmem
    simp only [processToolDecisionMetric]
    cases s.currentTrace with
    | none => intro hmem; simp at hmem
    | some tr =>
        by_cases hl : s.hasLangfuse <;> simp [hl]

/-- Witness for C6: a rejected decision with a current trace yields level
WARNING on both paths. -/
theorem C6_decision_event_level_witness :
    ("WARNING" = if attrGet [("decision", AttrValue.str "reject")] "decision" =
        some (AttrValue.str "accept") then "DEFAULT" else "WARNING")
  ∧ ("WARNING" = if attrGet [("decision", AttrValue.str "reject")] "decision" =
        some (AttrValue.str "accept") then "DEFAULT" else "WARNING") :=
  ⟨(C6_decision_event_level [("decision", AttrValue.str "reject")]
      (mkStandardAttrs [] {} 0) 0 { currentTrace := some "tr" }
      { asDouble := some 1 }).1 "tool-permission-decision" "tr" "WARNING" (by decide),
   (C6_decision_event_level [("decision", AttrValue.str "reject")]
      (mkStandardAttrs [] {} 0) 0 { currentTrace := some "tr" }
      { asDouble := some 1 }).2 "code-edit-decision" "tr" "WARNING" (by decide)⟩

lemma absorb_first_write (std : StandardAttrs) (s : Session) :
    (attrTruthyOpt s.organizationId = true →
      (absorbStandardAttrs std s).organizationId = s.organizationId) ∧
    (attrTruthyOpt s.userAccountUuid = true →
      (absorbStandardAttrs std s).userAccountUuid = s.userAccountUuid) ∧
    (attrTruthyOpt s.userEmail = true →
      (absorbStandardAttrs std s).userEmail = s.userEmail) ∧
    (attrTruthyOpt s.terminalType = true →
      (absorbStandardAttrs std s).terminalType = s.terminalType) ∧
    (absorbStandardAttrs std s).appVersion = s.appVersion := by
  simp only [absorbStandardAttrs]
  refine ⟨fun h => ?_, fun h => ?_, fun h => ?_, fun h => ?_, ?_⟩ <;>
    split_ifs <;> simp_all

lemma identity_processUserPrompt (attrs : AttrMap) (std : StandardAttrs) (ts : ℚ)
    (s : Session) :
    identityOf (processUserPrompt attrs std ts s).session = identityOf s := rfl

lemma identity_processApiRequest (attrs : AttrMap) (std : StandardAttrs) (ts : ℚ)
    (s : Session) :
    identityOf (processApiRequest attrs std ts s).session = identityOf s := by
  cases hct : s.currentTrace <;>
    simp [processApiRequest, handleApiRequest, handleUserPrompt, hct, identityOf]

lemma identity_processApiError (attrs : AttrMap) (std : StandardAttrs) (ts : ℚ)
    (s : Session) :
    identityOf (processApiError attrs std ts s).session = identityOf s := rfl

lemma identity_processToolResult (attrs : AttrMap) (std : StandardAttrs) (ts : ℚ)
    (s : Session) :
    identityOf (processToolResult attrs std ts s).session = identityOf s := rfl

lemma identity_processToolDecision (attrs : AttrMap) (std : StandardAttrs) (ts : ℚ)
    (s : Session) :
    identityOf (processToolDecision attrs std ts s).session = identityOf s := rfl

lemma identity_sessionProcessMetric (name : String) (dp : DataPoint) (attrs : AttrMap)
    (s : Session) :
    identityOf (sessionProcessMetric name dp attrs s) = identityOf s := by
  unfold sessionProcessMetric
  split <;> first | rfl | (split <;> rfl)

lemma identity_processMetric (m : Metric) (dp : DataPoint) (attrs : AttrMap) (s : Session) :
    identityOf (processMetric m dp attrs s).session = identityOf s := by
  simp only [processMetric]
  split <;>
    simp [processCostMetric, processTokenMetric, processLinesOfCodeMetric,
      processCommitMetric, processToolDecisionMetric, processSessionMetric,
      processActiveTimeMetric, processPullRequestMetric, identityOf,
      show ∀ s, identityOf (sessionProcessMetric m.name dp attrs s) = identityOf s from
        fun s => identity_sessionProcessMetric m.name dp attrs s] <;>
    have h := identity_sessionProcessMetric m.name dp attrs s <;>
    simp [identityOf] at h <;> simp [h]

lemma identity_processEvent (lr : LogRecord) (s : Session) :
    identityOf (processEvent lr s).session =
      identityOf (absorbStandardAttrs
        (mkStandardAttrs (extractAttributesArray lr.attributes) s
          (lr.timeUnixNano / 1000000)) s) := by
  simp only [processEvent]
  split <;> first | rfl | rw [identity_processUserPrompt] | rw [identity_processApiRequest]

/-- C8: once a session holds a truthy (non-empty) value for an identity
field, processing any further log record or metric leaves that field
unchanged; `app_version` is never even written by record processing, and the
metric path touches no identity field at all. -/
theorem C8_first_write_wins (lr : LogRecord) (m : Metric) (dp : DataPoint)
    (attrs : AttrMap) (s : Session) :
    (attrTruthyOpt s.organizationId = true →
      (processEvent lr s).session.organizationId = s.organizationId) ∧
    (attrTruthyOpt s.userAccountUuid = true →
      (processEvent lr s).session.userAccountUuid = s.userAccountUuid) ∧
    (attrTruthyOpt s.userEmail = true →
      (processEvent lr s).session.userEmail = s.userEmail) ∧
    (attrTruthyOpt s.terminalType = true →
      (processEvent lr s).session.terminalType = s.terminalType) ∧
    ((processEvent lr s).session.appVersion = s.appVersion) ∧
    ((processMetric m dp attrs s).session.organizationId = s.organizationId ∧
      (processMetric m dp attrs s).session.userAccountUuid = s.userAccountUuid ∧
      (processMetric m dp attrs s).session.userEmail = s.userEmail ∧
      (processMetric m dp attrs s).session.terminalType = s.terminalType ∧
      (processMetric m dp attrs s).session.appVersion = s.appVersion) := by
  have hev := identity_processEvent lr s
  have hme := identity_processMetric m dp attrs s
  have habs := absorb_first_write
    (mkStandardAttrs (extractAttributesArray lr.attributes) s (lr.timeUnixNano / 1000000)) s
  simp only [identityOf, Prod.mk.injEq] at hev hme
  obtain ⟨he1, he2, he3, he4, he5⟩ := hev
  obtain ⟨hm1, hm2, hm3, hm4, hm5⟩ := hme
  exact ⟨fun h => he1.trans (habs.1 h),
    fun h => he2.trans (habs.2.1 h),
    fun h => he3.trans (habs.2.2.1 h),
    fun h => he4.trans (habs.2.2.2.1 h),
    he5.trans habs.2.2.2.2,
    hm1, hm2, hm3, hm4, hm5⟩

/-- Witness for C8: a session that already holds identity values keeps them
when a record carrying conflicting values is processed. -/
theorem C8_first_write_wins_witness :
    ((processEvent { body := some "claude_code.user_prompt", attributes := [("organization.id", { stringValue := some "org-B" }), ("user.account_uuid", { stringValue := some "uuid-B" }), ("user.email", { stringValue := some "b@x" }), ("terminal.type", { stringValue := some "iterm" }), ("app.version", { stringValue := some "2.0" })] } { organizationId := some (.str "org-A"), userAccountUuid := some (.str "uuid-A"), userEmail := some (.str "a@x"), terminalType := some (.str "vscode"), appVersion := some (.str "1.0") }).session.organizationId = some (AttrValue.str "org-A")) ∧
    ((processEvent { body := some "claude_code.user_prompt", attributes := [("organization.id", { stringValue := some "org-B" }), ("user.account_uuid", { stringValue := some "uuid-B" }), ("user.email", { stringValue := some "b@x" }), ("terminal.type", { stringValue := some "iterm" }), ("app.version", { stringValue := some "2.0" })] } { organizationId := some (.str "org-A"), userAccountUuid := some (.str "uuid-A"), userEmail := some (.str "a@x"), terminalType := some (.str "vscode"), appVersion := some (.str "1.0") }).session.userAccountUuid = some (AttrValue.str "uuid-A")) ∧
    ((processEvent { body := some "claude_code.user_prompt", attributes := [("organization.id", { stringValue := some "org-B" }), ("user.account_uuid", { stringValue := some "uuid-B" }), ("user.email", { stringValue := some "b@x" }), ("terminal.type", { stringValue := some "iterm" }), ("app.version", { stringValue := some "2.0" })] } { organizationId := some (.str "org-A"), userAccountUuid := some (.str "uuid-A"), userEmail := some (.str "a@x"), terminalType := some (.str "vscode"), appVersion := some (.str "1.0") }).session.userEmail = some (AttrValue.str "a@x")) ∧
    ((processEvent { body := some "claude_code.user_prompt", attributes := [("organization.id", { stringValue := some "org-B" }), ("user.account_uuid", { stringValue := some "uuid-B" }), ("user.email", { stringValue := some "b@x" }), ("terminal.type", { stringValue := some "iterm" }), ("app.version", { stringValue := some "2.0" })] } { organizationId := some (.str "org-A"), userAccountUuid := some (.str "uuid-A"), userEmail := some (.str "a@x"), terminalType := some (.str "vscode"), appVersion := some (.str "1.0") }).session.terminalType = some (AttrValue.str "vscode")) ∧
    ((processEvent { body := some "claude_code.user_prompt", attributes := [("organization.id", { stringValue := some "org-B" }), ("user.account_uuid", { stringValue := some "uuid-B" }), ("user.email", { stringValue := some "b@x" }), ("terminal.type", { stringValue := some "iterm" }), ("app.version", { stringValue := some "2.0" })] } { organizationId := some (.str "org-A"), userAccountUuid := some (.str "uuid-A"), userEmail := some (.str "a@x"), terminalType := some (.str "vscode"), appVersion := some (.str "1.0") }).session.appVersion = some (AttrValue.str "1.0")) := by
  have h := C8_first_write_wins
    { body := some "claude_code.user_prompt", attributes := [("organization.id", { stringValue := some "org-B" }), ("user.account_uuid", { stringValue := some "uuid-B" }), ("user.email", { stringValue := some "b@x" }), ("terminal.type", { stringValue := some "iterm" }), ("app.version", { stringValue := some "2.0" })] }
    { name := "claude_code.cost.usage" } { asDouble := some 1 } []
    { organizationId := some (.str "org-A"), userAccountUuid := some (.str "uuid-A"), userEmail := some (.str "a@x"), terminalType := some (.str "vscode"), appVersion := some (.str "1.0") }
  exact ⟨h.1 (by decide), h.2.1 (by decide), h.2.2.1 (by decide), h.2.2.2.1 (by decide),
    h.2.2.2.2.1⟩

lemma agg_absorb (std : StandardAttrs) (s : Session) :
    (absorbStandardAttrs std s).totalCost = s.totalCost ∧
    (absorbStandardAttrs std s).apiCallCount = s.apiCallCount ∧
    (absorbStandardAttrs std s).toolResultCount = s.toolResultCount ∧
    (absorbStandardAttrs std s).commitCount = s.commitCount ∧
    (absorbStandardAttrs std s).prCount = s.prCount := by
  simp only [absorbStandardAttrs]
  split_ifs <;> simp

lemma event_step_mono (lr : LogRecord) (s : Session)
    (hr : lr.body = some "claude_code.api_request" →
      ∃ q, costUsdOf (extractAttributesArray lr.attributes) = some q ∧ 0 ≤ q) :
    (processEvent lr s).session.commitCount = s.commitCount ∧
    (processEvent lr s).session.prCount = s.prCount ∧
    s.totalCost ≤ (processEvent lr s).session.totalCost ∧
    s.apiCallCount ≤ (processEvent lr s).session.apiCallCount ∧
    s.toolResultCount ≤ (processEvent lr s).session.toolResultCount := by
  obtain ⟨ha1, ha2, ha3, ha4, ha5⟩ := agg_absorb
    (mkStandardAttrs (extractAttributesArray lr.attributes) s (lr.timeUnixNano / 1000000)) s
  simp only [processEvent]
  split
  next hbody =>
    simp [processUserPrompt, handleUserPrompt, ha1, ha2, ha3, ha4, ha5]
  next hbody =>
    obtain ⟨q, hq, hq0⟩ := hr hbody
    cases hct : (absorbStandardAttrs
        (mkStandardAttrs (extractAttributesArray lr.attributes) s
          (lr.timeUnixNano / 1000000)) s).currentTrace <;>
      simp [processApiRequest, handleApiRequest, handleUserPrompt, hct, hq, hq0,
        ha1, ha2, ha3, ha4, ha5]
  next hbody =>
    simp [processApiError, handleApiError, ha1, ha2, ha3, ha4, ha5]
  next hbody =>
    simp [processToolResult, handleToolResult, ha1, ha2, ha3, ha4, ha5]
  next hbody =>
    simp [processToolDecision, ha1, ha2, ha3, ha4, ha5]
  next =>
    simp [ha1, ha2, ha3, ha4, ha5]

lemma spm_mono (name : String) (dp : DataPoint) (attrs : AttrMap) (s : Session)
    (hc : name = "claude_code.cost.usage" → 0 ≤ dataPointValue dp) :
    (sessionProcessMetric name dp attrs s).commitCount = s.commitCount ∧
    (sessionProcessMetric name dp attrs s).prCount = s.prCount ∧
    (sessionProcessMetric name dp attrs s).apiCallCount = s.apiCallCount ∧
    (sessionProcessMetric name dp attrs s).toolResultCount = s.toolResultCount ∧
    s.totalCost ≤ (sessionProcessMetric name dp attrs s).totalCost := by
  unfold sessionProcessMetric
  split
  next =>
    have := hc rfl
    simp
    linarith
  next => split <;> simp
  next => split <;> simp
  next => simp

lemma metric_step_mono (m : Metric) (dp : DataPoint) (attrs : AttrMap) (s : Session)
    (hcnt : (m.name = "claude_code.commit.count" ∨ m.name = "claude_code.pr.count" ∨
        m.name = "claude_code.pull_request.count") → ∃ v, countParse dp = some v ∧ 0 ≤ v)
    (hc : m.name = "claude_code.cost.usage" → 0 ≤ dataPointValue dp)
    (hs : sessionWF s) :
    sessionWF (processMetric m dp attrs s).session ∧
    s.totalCost ≤ (processMetric m dp attrs s).session.totalCost ∧
    s.apiCallCount ≤ (processMetric m dp attrs s).session.apiCallCount ∧
    s.toolResultCount ≤ (processMetric m dp attrs s).session.toolResultCount ∧
    s.commitCount.getD 0 ≤ (processMetric m dp attrs s).session.commitCount.getD 0 ∧
    s.prCount.getD 0 ≤ (processMetric m dp attrs s).session.prCount.getD 0 := by
  obtain ⟨hp1, hp2, hp3, hp4, hp5⟩ := spm_mono m.name dp attrs s hc
  obtain ⟨hw1, hw2⟩ := hs
  simp only [processMetric]
  split
  next h =>
    simp [processCostMetric, sessionWF, hp1, hp2, hp3, hp4, hp5, hw1, hw2]
  next h =>
    simp [processTokenMetric, sessionWF, hp1, hp2, hp3, hp4, hp5, hw1, hw2]
  next h =>
    simp [processLinesOfCodeMetric, sessionWF, hp1, hp2, hp3, hp4, hp5, hw1, hw2]
  next h =>
    obtain ⟨v, hv, hv0⟩ := hcnt (Or.inl h)
    cases hcc : s.commitCount with
    | none => exact absurd hcc hw1
    | some n =>
        simp [processCommitMetric, optAdd, hv, sessionWF, hp1, hp2, hp3, hp4, hp5,
          hw2, hcc]
        by_cases hn : n = 0 <;> simp [hn] <;> omega
  next h =>
    simp [processToolDecisionMetric, sessionWF, hp1, hp2, hp3, hp4, hp5, hw1, hw2]
  next h =>
    simp [processSessionMetric, sessionWF, hp1, hp2, hp3, hp4, hp5, hw1, hw2]
  next h =>
    simp [processActiveTimeMetric, sessionWF, hp1, hp2, hp3, hp4, hp5, hw1, hw2]
  next h =>
    obtain ⟨v, hv, hv0⟩ := hcnt (Or.inr (Or.inl h))
    cases hcc : s.prCount with
    | none => exact absurd hcc hw2
    | some n =>
        simp [processPullRequestMetric, optAdd, hv, sessionWF, hp1, hp2, hp3, hp4, hp5,
          hw1, hcc]
        by_cases hn : n = 0 <;> simp [hn] <;> omega
  next h =>
    obtain ⟨v, hv, hv0⟩ := hcnt (Or.inr (Or.inr h))
    cases hcc : s.prCount with
    | none => exact absurd hcc hw2
    | some n =>
        simp [processPullRequestMetric, optAdd, hv, sessionWF, hp1, hp2, hp3, hp4, hp5,
          hw1, hcc]
        by_cases hn : n = 0 <;> simp [hn] <;> omega
  next =>
    simp [sessionWF, hp1, hp2, hp3, hp4, hp5, hw1, hw2]

lemma ingest_step_mono (r : IngestRecord) (s : Session) (hr : recordNonNeg r)
    (hs : sessionWF s) :
    sessionWF (ingest r s) ∧
    s.totalCost ≤ (ingest r s).totalCost ∧
    s.apiCallCount ≤ (ingest r s).apiCallCount ∧
    s.toolResultCount ≤ (ingest r s).toolResultCount ∧
    s.commitCount.getD 0 ≤ (ingest r s).commitCount.getD 0 ∧
    s.prCount.getD 0 ≤ (ingest r s).prCount.getD 0 := by
  cases r with
  | log lr =>
      obtain ⟨he1, he2, he3, he4, he5⟩ := event_step_mono lr s hr
      simp [ingest, sessionWF, he1, he2, he3, he4, he5, hs.1, hs.2]
  | metric m dp attrs =>
      obtain ⟨hm1, hm2⟩ := hr
      have h := metric_step_mono m dp attrs s hm1 hm2 hs
      simpa [ingest] using h

/-- C9 (amended): over any sequence of ingested records whose parsed numeric
amounts are non-negative (commit/pull-request counts, cost values and
api_request costs — the code itself adds whatever `parseInt`/`parseFloat`
returns, so a negative amount would decrement), the aggregates
`total_cost_usd`, `api_call_count`, `tool_result_count`, `commit_count` and
`pr_count` of a well-formed session never decrease. -/
theorem C9_monotone_aggregates (rs : List IngestRecord) (s : Session)
    (hr : ∀ r ∈ rs, recordNonNeg r) (hs : sessionWF s) :
    sessionWF (ingestAll rs s) ∧
    s.totalCost ≤ (ingestAll rs s).totalCost ∧
    s.apiCallCount ≤ (ingestAll rs s).apiCallCount ∧
    s.toolResultCount ≤ (ingestAll rs s).toolResultCount ∧
    s.commitCount.getD 0 ≤ (ingestAll rs s).commitCount.getD 0 ∧
    s.prCount.getD 0 ≤ (ingestAll rs s).prCount.getD 0 := by
  induction rs generalizing s with
  | nil =>
      exact ⟨hs, le_refl _, le_refl _, le_refl _, le_refl _, le_refl _⟩
  | cons r rs ih =>
      obtain ⟨w1, c1, a1, t1, m1, p1⟩ :=
        ingest_step_mono r s (hr r (List.mem_cons_self r rs)) hs
      obtain ⟨w2, c2, a2, t2, m2, p2⟩ :=
        ih (ingest r s) (fun x hx => hr x (List.mem_cons_of_mem r hx)) w1
      have hfold : ingestAll (r :: rs) s = ingestAll rs (ingest r s) := rfl
      rw [hfold]
      exact ⟨w2, le_trans c1 c2, le_trans a1 a2, le_trans t1 t2, le_trans m1 m2,
        le_trans p1 p2⟩

/-- Witness for C9: a commit datapoint with count 2 on a fresh session. -/
theorem C9_monotone_aggregates_witness :
    sessionWF (ingestAll
      [IngestRecord.metric { name := "claude_code.commit.count" } { asInt := some "2" } []]
      {}) ∧
    ({} : Session).totalCost ≤ (ingestAll
      [IngestRecord.metric { name := "claude_code.commit.count" } { asInt := some "2" } []]
      {}).totalCost ∧
    ({} : Session).apiCallCount ≤ (ingestAll
      [IngestRecord.metric { name := "claude_code.commit.count" } { asInt := some "2" } []]
      {}).apiCallCount ∧
    ({} : Session).toolResultCount ≤ (ingestAll
      [IngestRecord.metric { name := "claude_code.commit.count" } { asInt := some "2" } []]
      {}).toolResultCount ∧
    ({} : Session).commitCount.getD 0 ≤ (ingestAll
      [IngestRecord.metric { name := "claude_code.commit.count" } { asInt := some "2" } []]
      {}).commitCount.getD 0 ∧
    ({} : Session).prCount.getD 0 ≤ (ingestAll
      [IngestRecord.metric { name := "claude_code.commit.count" } { asInt := some "2" } []]
      {}).prCount.getD 0 :=
  C9_monotone_aggregates
    [IngestRecord.metric { name := "claude_code.commit.count" } { asInt := some "2" } []]
    {}
    (by
      intro r hrm
      simp only [List.mem_singleton] at hrm
      subst hrm
      exact ⟨fun _ => ⟨2, by decide, by decide⟩, fun hfalse => absurd hfalse (by decide)⟩)
    ⟨by decide, by decide⟩

/-- Counterexample to C9 as stated: a commit.count datapoint with
`asInt: "-2"` decrements `commitCount` from 5 to 3. -/
theorem C9_counterexample_negative_count :
    (processCommitMetric { asInt := some "-2" } [] 0
      { commitCount := some 5 }).session.commitCount = some 3
  ∧ ¬ ((5 : ℤ) ≤ 3) := by
  refine ⟨?_, by decide⟩
  decide
